import Mathlib

set_option maxRecDepth 8000

/-- Model of a Go error value as used by the aerrors package: either a plain
error (such as one produced by errors.New, or by fmt.Errorf without a valid
wrap verb) carrying only a message, or a wrapping error (produced by
fmt.Errorf with a single valid percent-w verb) carrying a message and the
wrapped inner error. -/
inductive GoError where
  | simple (msg : String) : GoError
  | wrapped (msg : String) (inner : GoError) : GoError
deriving DecidableEq, Repr

/-- The Error method of a Go error: its textual message. -/
def GoError.message : GoError → String
  | GoError.simple m => m
  | GoError.wrapped m _ => m

/-- Go errors.Unwrap: a wrapping error yields its inner error, a plain error
yields nil (none). -/
def GoError.unwrap : GoError → Option GoError
  | GoError.simple _ => none
  | GoError.wrapped _ inner => some inner

/-- Go errors.Is restricted to this model: walk the unwrap chain, comparing
against the target at every step. -/
def errorsIs : GoError → GoError → Bool
  | e@(GoError.simple _), target => decide (e = target)
  | e@(GoError.wrapped _ inner), target => decide (e = target) || errorsIs inner target

/-- Go errors.New. -/
def errorsNew (s : String) : GoError := GoError.simple s

/-- Go fmt.Errorf with format string percent-s colon percent-w applied to an
already formatted text and a non-nil error: the result's message is
the text, a colon-space, and the inner message, and the result wraps
the inner error. -/
def wrapNonNil (s : String) (e : GoError) : GoError :=
  GoError.wrapped (s ++ (": ") ++ e.message) e

/-- Go fmt.Errorf with format string percent-w colon percent-v applied to the
configured baseError (a possibly nil error value) and a non-nil error, as on
the first line of AsyncError.handle. When the base is non-nil the result
wraps the base and its message is the base message, a colon-space, and the
message of the handled error. When the base is nil the percent-w verb has no
valid operand, so fmt emits its bad-verb text for it and the resulting error
wraps nothing. -/
def errorfBaseV (base : Option GoError) (e : GoError) : GoError :=
  match base with
  | some b => GoError.wrapped (b.message ++ (": ") ++ e.message) b
  | none => GoError.simple (("%!w(<nil>)") ++ (": ") ++ e.message)

/-- Go func Wrap(errp, format, args) of the package: a no-op unless errp is
a non-nil pointer and the pointed error is non-nil, in which case the
pointed error is replaced by fmt.Errorf of the formatted text, colon-space,
wrapped old error. The pointer is modelled as Option (Option GoError): none
is a nil pointer, some none is a pointer holding a nil error, and the
already formatted text stands for Sprintf(format, args). -/
def Wrap (errp : Option (Option GoError)) (s : String) : Option (Option GoError) :=
  match errp with
  | none => none
  | some none => some none
  | some (some e) => some (some (wrapNonNil s e))

/-- State of one AsyncError instance (the aerrors package), together with
the bookkeeping the proofs observe. queue models the buffered errorChan
(items are Option GoError because Go permits sending a nil error);
asyncPending holds the AddAsync goroutines that have not yet delivered
into the channel; wgCount is the sync.WaitGroup counter; loops is the
number of goroutines currently executing the start loop; handled lists, in
order, the errors delivered to the handler or to the logger fallback;
leakedNils counts the nil errors the start loop dequeued and skipped
without calling wg.Done; chanClosed and stopChClosed record whether the Go
close() has been applied to errorChan and stopCh. -/
structure AsyncError where
  baseError : Option GoError := none
  hasHandler : Bool := false
  capacity : Nat := 10
  queue : List (Option GoError) := []
  asyncPending : List (Option GoError) := []
  wgCount : Nat := 0
  running : Bool := false
  closed : Bool := false
  loops : Nat := 0
  chanClosed : Bool := false
  stopChClosed : Bool := false
  handled : List GoError := []
  leakedNils : Nat := 0
deriving DecidableEq, Repr

/-- Option of the package: a mutation applied to the instance by New. -/
abbrev AErrOption : Type := AsyncError → AsyncError

/-- WithBaseError uses the provided base error. -/
def WithBaseError (err : GoError) : AErrOption :=
  fun a => { a with baseError := some err }

/-- WithHandler installs an error handler. -/
def WithHandler : AErrOption :=
  fun a => { a with hasHandler := true }

/-- WithErrorChanLen replaces errorChan with a fresh empty channel of the
given capacity. -/
def WithErrorChanLen (l : Nat) : AErrOption :=
  fun a => { a with capacity := l, queue := [] }

/-- Default errorChan capacity of the package. -/
def defaultErrorChanLen : Nat := 10

/-- New builds an instance with the defaults of the package constructor and
applies the options in order. -/
def New (opts : List AErrOption) : AsyncError :=
  opts.foldl (fun a opt => opt a) ({ capacity := defaultErrorChanLen } : AsyncError)

/-- IsClosed: reads the closed flag under the mutex. -/
def AsyncError.IsClosed (e : AsyncError) : Bool := e.closed

/-- IsRunning: reads the running flag under the mutex. -/
def AsyncError.IsRunning (e : AsyncError) : Bool := e.running

/-- Add: fails with a closed error when the instance is closed; otherwise it
increments the wait-group counter and sends the error into errorChan (the
send completes once the buffer has room; the returned state is the
post-send one). The Go error result is returned with the new state. -/
def AsyncError.Add (e : AsyncError) (err : Option GoError) :
    Option GoError × AsyncError :=
  if e.IsClosed then
    (some (errorsNew ("aerrors: can\x27t add error to closed chan")), e)
  else
    (none, { e with wgCount := e.wgCount + 1, queue := e.queue ++ [err] })

/-- AddAsync: fails with a closed error when the instance is closed;
otherwise it increments the wait-group counter and spawns a goroutine that
will perform the send, recorded in asyncPending until it delivers. -/
def AsyncError.AddAsync (e : AsyncError) (err : Option GoError) :
    Option GoError × AsyncError :=
  if e.IsClosed then
    (some (errorsNew ("aerrors: can\x27t async add error to closed chan")), e)
  else
    (none, { e with wgCount := e.wgCount + 1, asyncPending := e.asyncPending ++ [err] })

/-- StartHandle: fails with a closed error when the instance is closed;
otherwise it sets running and spawns one more start loop goroutine. The
source checks only the closed flag, never the running flag. -/
def AsyncError.StartHandle (e : AsyncError) : Option GoError × AsyncError :=
  if e.IsClosed then
    (some (errorsNew ("aerrors: can\x27t start handle for closed aerror")), e)
  else
    (none, { e with running := true, loops := e.loops + 1 })

/-- Stop and the private stop: a no-op when not running; otherwise clears
running and sends on stopCh, which exactly one start loop receives, making
that loop return. -/
def AsyncError.Stop (e : AsyncError) : AsyncError :=
  if e.running then { e with running := false, loops := e.loops - 1 } else e

/-- handle: chains the dequeued error beneath the configured baseError with
fmt.Errorf of percent-w colon percent-v, annotates the result through Wrap
with the HandleError tag (the pointed error is never nil there), and
delivers the result either to the handler goroutine, when a handler is set,
or to the logger. The delivered value is the same in both cases. -/
def AsyncError.handle (e : AsyncError) (err : GoError) : GoError :=
  wrapNonNil ("HandleError()") (errorfBaseV e.baseError err)

/-- One iteration of the start loop in which the errorChan case fires: the
head of the buffer is received; a non-nil error is handled (the result is
appended to handled) and wg.Done is called; a nil error is skipped without
wg.Done, which the model records in leakedNils. With an empty buffer the
receive blocks and the state is unchanged. -/
def AsyncError.startIteration (e : AsyncError) : AsyncError :=
  match e.queue with
  | [] => e
  | newError :: rest =>
    match newError with
    | some err =>
        { e with queue := rest, handled := e.handled ++ [e.handle err],
                 wgCount := e.wgCount - 1 }
    | none => { e with queue := rest, leakedNils := e.leakedNils + 1 }

/-- The state a completed Close leaves behind: closed is set first; then,
when running was set, wg.Wait has finished and the private stop clears
running and terminates one loop; finally both channels are closed. -/
def closeEffect (e : AsyncError) : AsyncError :=
  let e1 : AsyncError := { e with closed := true }
  let e2 : AsyncError :=
    if e1.running then { e1 with running := false, loops := e1.loops - 1 } else e1
  { e2 with chanClosed := true, stopChClosed := true }

/-- Close: returns immediately when already closed; otherwise runs the body
modelled by closeEffect. Closing an already closed Go channel panics, which
the model renders as none; the IsClosed guard keeps that branch unreachable
for states this model produces. -/
def AsyncError.Close (e : AsyncError) : Option AsyncError :=
  if e.IsClosed then some e
  else if e.chanClosed || e.stopChClosed then none
  else some (closeEffect e)

/-- PanicToError given the recovered payload (none when the task was not
panicking): it builds fmt.Errorf of percent-v on the payload, annotates it
through Wrap with the recoverToError tag, and calls Add, discarding the
result of Add. -/
def AsyncError.PanicToError (e : AsyncError) (p : Option String) : AsyncError :=
  match p with
  | none => e
  | some payload =>
      (e.Add (some (wrapNonNil ("recoverToError()") (GoError.simple payload)))).2

/-- Interleaved execution steps of one instance: the public operations, the
delivery performed by a pending AddAsync goroutine, one receiving iteration
of the start loop, the completion of a Close (which, when the instance is
running, can only happen once wg.Wait has observed a zero counter), and the
exit of a loop goroutine that receives from the closed stopCh. -/
inductive Step : AsyncError → AsyncError → Prop where
  | addOk (s : AsyncError) (e : Option GoError) (hc : s.closed = false)
      (hroom : s.queue.length < s.capacity) : Step s (s.Add e).2
  | addClosed (s : AsyncError) (e : Option GoError) (hc : s.closed = true) :
      Step s (s.Add e).2
  | addAsyncOk (s : AsyncError) (e : Option GoError) (hc : s.closed = false) :
      Step s (s.AddAsync e).2
  | addAsyncClosed (s : AsyncError) (e : Option GoError) (hc : s.closed = true) :
      Step s (s.AddAsync e).2
  | deliverAsync (s : AsyncError) (l1 l2 : List (Option GoError)) (e : Option GoError)
      (hp : s.asyncPending = l1 ++ e :: l2) (hroom : s.queue.length < s.capacity)
      (hcc : s.chanClosed = false) :
      Step s { s with asyncPending := l1 ++ l2, queue := s.queue ++ [e] }
  | startOk (s : AsyncError) (hc : s.closed = false) : Step s s.StartHandle.2
  | startClosed (s : AsyncError) (hc : s.closed = true) : Step s s.StartHandle.2
  | stopStep (s : AsyncError) : Step s s.Stop
  | iterate (s : AsyncError) (ne : Option GoError) (rest : List (Option GoError))
      (hq : s.queue = ne :: rest) (hl : 1 ≤ s.loops) : Step s s.startIteration
  | closeDone (s : AsyncError) (hc : s.closed = false)
      (hw : s.running = true → s.wgCount = 0) : Step s (closeEffect s)
  | closeNoop (s : AsyncError) (hc : s.closed = true) : Step s s
  | loopExit (s : AsyncError) (hs : s.stopChClosed = true) (hl : 1 ≤ s.loops) :
      Step s { s with loops := s.loops - 1 }
  | panicStep (s : AsyncError) (p : String) : Step s (s.PanicToError (some p))

/-- Reflexive transitive closure of Step. -/
inductive Reachable : AsyncError → AsyncError → Prop where
  | refl (s : AsyncError) : Reachable s s
  | tail (s t u : AsyncError) : Reachable s t → Step t u → Reachable s u

/-- WaitGroup accounting: the counter equals the number of errors buffered
in the channel, plus the sends still pending inside AddAsync goroutines,
plus the nil errors the start loop dequeued without calling wg.Done. -/
def WgInv (s : AsyncError) : Prop :=
  s.wgCount = s.queue.length + s.asyncPending.length + s.leakedNils

/-- Completion of a Close call begun on state s: the instance was not yet
closed, wg.Wait has observed a zero counter whenever the instance was
running, and the state Close leaves behind is closeEffect of s. -/
def CloseCompletes (s t : AsyncError) : Prop :=
  s.closed = false ∧ (s.running = true → s.wgCount = 0) ∧ t = closeEffect s

theorem wgInv_step {s t : AsyncError} (h : Step s t) (hI : WgInv s) : WgInv t := by
  cases h with
  | addOk e hc hroom =>
      simp [WgInv, AsyncError.Add, AsyncError.IsClosed, hc] at hI ⊢
      omega
  | addClosed e hc =>
      simpa [AsyncError.Add, AsyncError.IsClosed, hc] using hI
  | addAsyncOk e hc =>
      simp [WgInv, AsyncError.AddAsync, AsyncError.IsClosed, hc] at hI ⊢
      omega
  | addAsyncClosed e hc =>
      simpa [AsyncError.AddAsync, AsyncError.IsClosed, hc] using hI
  | deliverAsync l1 l2 e hp hroom hcc =>
      simp [WgInv, hp] at hI ⊢
      omega
  | startOk hc =>
      simpa [WgInv, AsyncError.StartHandle, AsyncError.IsClosed, hc] using hI
  | startClosed hc =>
      simpa [AsyncError.StartHandle, AsyncError.IsClosed, hc] using hI
  | stopStep =>
      cases hr : s.running <;> simpa [WgInv, AsyncError.Stop, hr] using hI
  | iterate ne rest hq hl =>
      cases ne with
      | some err =>
          simp [WgInv, AsyncError.startIteration, hq] at hI ⊢
          omega
      | none =>
          simp [WgInv, AsyncError.startIteration, hq] at hI ⊢
          omega
  | closeDone hc hw =>
      cases hr : s.running <;> simpa [WgInv, closeEffect, hr] using hI
  | closeNoop hc => exact hI
  | loopExit hs hl => simpa [WgInv] using hI
  | panicStep p =>
      cases hc : s.closed <;>
        simp [WgInv, AsyncError.PanicToError, AsyncError.Add, AsyncError.IsClosed, hc] at hI ⊢ <;>
        omega

theorem wgInv_reachable {s t : AsyncError} (h : Reachable s t) (hI : WgInv s) :
    WgInv t := by
  induction h with
  | refl => exact hI
  | tail b c hab hbc ih => exact wgInv_step hbc ih

/-- On a closed instance with no loop goroutine left, every step keeps it
closed, keeps it loopless, and delivers nothing to the handler or logger. -/
theorem frozen_step {s t : AsyncError} (h : Step s t) (hc : s.closed = true)
    (hl : s.loops = 0) : t.closed = true ∧ t.loops = 0 ∧ t.handled = s.handled := by
  cases h with
  | addOk e hc' hroom => simp [hc] at hc'
  | addClosed e hc' =>
      simp [AsyncError.Add, AsyncError.IsClosed, hc', hc, hl]
  | addAsyncOk e hc' => simp [hc] at hc'
  | addAsyncClosed e hc' =>
      simp [AsyncError.AddAsync, AsyncError.IsClosed, hc', hc, hl]
  | deliverAsync l1 l2 e hp hroom hcc => simp [hc, hl]
  | startOk hc' => simp [hc] at hc'
  | startClosed hc' =>
      simp [AsyncError.StartHandle, AsyncError.IsClosed, hc', hc, hl]
  | stopStep =>
      cases hr : s.running <;> simp [AsyncError.Stop, hr, hc, hl]
  | iterate ne rest hq hl' => omega
  | closeDone hc' hw => simp [hc] at hc'
  | closeNoop hc' => exact ⟨hc, hl, rfl⟩
  | loopExit hs hl' => omega
  | panicStep p =>
      simp [AsyncError.PanicToError, AsyncError.Add, AsyncError.IsClosed, hc, hl]

theorem frozen_reachable {s t : AsyncError} (h : Reachable s t)
    (hc : s.closed = true) (hl : s.loops = 0) :
    t.closed = true ∧ t.loops = 0 ∧ t.handled = s.handled := by
  induction h with
  | refl => exact ⟨hc, hl, rfl⟩
  | tail b c hab hbc ih =>
      obtain ⟨h1, h2, h3⟩ := ih
      obtain ⟨g1, g2, g3⟩ := frozen_step hbc h1 h2
      exact ⟨g1, g2, g3.trans h3⟩

theorem errorsIs_self (b : GoError) : errorsIs b b = true := by
  cases b <;> simp [errorsIs]

/-- Concrete base error for the chain analysis. -/
def c1base : GoError := GoError.simple ("base failure")

/-- Concrete admitted error for the chain analysis. -/
def c1orig : GoError := GoError.simple ("boom")

/-- A fresh instance with base error and handler, started, with one error
admitted via Add. -/
def c1s : AsyncError :=
  ((New [WithBaseError c1base, WithHandler]).StartHandle.2.Add (some c1orig)).2

/-- Claim C1 counterexample: with a base error configured and an error
admitted via Add, the error delivered by the dispatch loop has a chain in
which the base error appears but the original error does not: errors.Is on
the delivered error succeeds for the base and fails for the original,
because handle formats the original with the percent-v verb instead of
wrapping it. -/
theorem handle_chain_misses_original :
    c1s.startIteration.handled = [c1s.handle c1orig] ∧
    errorsIs (c1s.handle c1orig) c1base = true ∧
    errorsIs (c1s.handle c1orig) c1orig = false := by decide

/-- Claim C1 (amended): for every instance with base error B and every
non-nil error e dequeued by a running dispatch loop, the delivered error
wraps down to B, so chain inspection finds B; the original error e
contributes only its message, which appears verbatim in the delivered
message after the handling annotation and the base message, but e itself is
not an ancestor of the delivered error. -/
theorem handle_chains_base (s : AsyncError) (b e : GoError)
    (rest : List (Option GoError)) (hb : s.baseError = some b)
    (hq : s.queue = some e :: rest) (hl : 1 ≤ s.loops) :
    s.startIteration.handled = s.handled ++ [s.handle e] ∧
    errorsIs (s.handle e) b = true ∧
    (s.handle e).message =
      ("HandleError()") ++ (": ") ++ (b.message ++ (": ") ++ e.message) := by
  refine ⟨by simp [AsyncError.startIteration, hq], ?_, ?_⟩
  · simp [AsyncError.handle, errorfBaseV, hb, wrapNonNil, errorsIs, errorsIs_self]
  · simp [AsyncError.handle, errorfBaseV, hb, wrapNonNil, GoError.message]

/-- Witness for the amended C1 claim at the concrete instance. -/
theorem handle_chains_base_witness :
    c1s.startIteration.handled = c1s.handled ++ [c1s.handle c1orig] ∧
    errorsIs (c1s.handle c1orig) c1base = true ∧
    (c1s.handle c1orig).message =
      ("HandleError()") ++ (": ") ++ (c1base.message ++ (": ") ++ c1orig.message) :=
  handle_chains_base c1s c1base c1orig [] (by decide) (by decide) (by decide)

/-- A fresh instance on which StartHandle has been called twice. -/
def c2s : AsyncError := (New []).StartHandle.2.StartHandle.2

/-- Claim C2 counterexample: StartHandle performs no running check, so a
second call on a running instance spawns a second dispatch loop: after two
StartHandle calls on a fresh instance, two loop goroutines are running, so
it is not the case that at most one dispatch loop runs per instance. -/
theorem startHandle_spawns_second_loop :
    c2s.loops = 2 ∧ ¬ c2s.loops ≤ 1 := by decide

/-- Claim C2 (amended): StartHandle on a non-closed instance never fails and
always spawns one more dispatch loop, even when one is already running;
still, with a single queued error, one loop iteration consumes it and any
further iteration finds the channel empty and blocks, so a single queued
error is handled exactly once even after two StartHandle calls. -/
theorem startHandle_always_spawns (s : AsyncError) (e : GoError)
    (hc : s.closed = false) (hq : s.queue = [some e]) :
    s.StartHandle.1 = none ∧
    s.StartHandle.2.running = true ∧
    s.StartHandle.2.StartHandle.2.loops = s.loops + 2 ∧
    s.StartHandle.2.StartHandle.2.startIteration.handled = s.handled ++ [s.handle e] ∧
    s.StartHandle.2.StartHandle.2.startIteration.queue = [] ∧
    s.StartHandle.2.StartHandle.2.startIteration.startIteration =
      s.StartHandle.2.StartHandle.2.startIteration := by
  refine ⟨?_, ?_, ?_, ?_, ?_, ?_⟩ <;>
    simp [AsyncError.StartHandle, AsyncError.IsClosed, hc,
          AsyncError.startIteration, hq, AsyncError.handle]

/-- A started fresh instance holding a single queued error. -/
def c2w : AsyncError :=
  ((New []).StartHandle.2.Add (some (errorsNew ("only once")))).2

/-- Witness for the amended C2 claim at the concrete instance. -/
theorem startHandle_always_spawns_witness :
    c2w.StartHandle.1 = none ∧
    c2w.StartHandle.2.running = true ∧
    c2w.StartHandle.2.StartHandle.2.loops = c2w.loops + 2 ∧
    c2w.StartHandle.2.StartHandle.2.startIteration.handled =
      c2w.handled ++ [c2w.handle (errorsNew ("only once"))] ∧
    c2w.StartHandle.2.StartHandle.2.startIteration.queue = [] ∧
    c2w.StartHandle.2.StartHandle.2.startIteration.startIteration =
      c2w.StartHandle.2.StartHandle.2.startIteration :=
  startHandle_always_spawns c2w (errorsNew ("only once")) (by decide) (by decide)

/-- Claim C3: on a closed instance, Add, AddAsync and StartHandle each
return, synchronously, a distinguishable closed failure value and leave the
state untouched: nothing is enqueued, no loop is spawned, and the list of
handled errors does not change. -/
theorem closed_ops_reject (s : AsyncError) (e : Option GoError)
    (hc : s.closed = true) :
    (s.Add e).1 = some (errorsNew ("aerrors: can\x27t add error to closed chan")) ∧
    (s.Add e).2 = s ∧
    (s.AddAsync e).1 =
      some (errorsNew ("aerrors: can\x27t async add error to closed chan")) ∧
    (s.AddAsync e).2 = s ∧
    s.StartHandle.1 =
      some (errorsNew ("aerrors: can\x27t start handle for closed aerror")) ∧
    s.StartHandle.2 = s ∧
    (s.Add e).2.handled = s.handled ∧
    (s.AddAsync e).2.queue = s.queue ∧
    s.StartHandle.2.loops = s.loops := by
  simp [AsyncError.Add, AsyncError.AddAsync, AsyncError.StartHandle,
        AsyncError.IsClosed, hc]

/-- A concrete closed instance. -/
def c3s : AsyncError := closeEffect (New [])

/-- Witness for C3 at the concrete closed instance. -/
theorem closed_ops_reject_witness :
    (c3s.Add none).1 = some (errorsNew ("aerrors: can\x27t add error to closed chan")) ∧
    (c3s.Add none).2 = c3s ∧
    (c3s.AddAsync none).1 =
      some (errorsNew ("aerrors: can\x27t async add error to closed chan")) ∧
    (c3s.AddAsync none).2 = c3s ∧
    c3s.StartHandle.1 =
      some (errorsNew ("aerrors: can\x27t start handle for closed aerror")) ∧
    c3s.StartHandle.2 = c3s ∧
    (c3s.Add none).2.handled = c3s.handled ∧
    (c3s.AddAsync none).2.queue = c3s.queue ∧
    c3s.StartHandle.2.loops = c3s.loops :=
  closed_ops_reject c3s none (by decide)

/-- A started fresh instance into which a nil error has been admitted. -/
def c4s : AsyncError := ((New []).StartHandle.2.Add none).2

/-- Claim C4 counterexample: admitting a nil error via Add increments
pendingCount, but the dispatch loop dequeues nil without handling it and
without calling wg.Done: after the dequeue the queue is empty and nothing
was ever handled, yet the counter is still 1, not 0 — the admission is
never balanced by a decrement. -/
theorem nil_admission_leaks :
    c4s.wgCount = 1 ∧
    c4s.startIteration.queue = [] ∧
    c4s.startIteration.handled = [] ∧
    c4s.startIteration.wgCount = 1 ∧
    ¬ c4s.startIteration.wgCount = 0 := by decide

/-- Claim C4 (amended): for non-nil errors the accounting balances: each
admission via Add or AddAsync increments pendingCount exactly once and the
dequeue-and-handle of a non-nil error decrements it exactly once; a nil
admitted error increments the counter but is dequeued without being handled
or decremented, so after nil admissions the counter cannot return to
zero. -/
theorem wg_balance (s : AsyncError) (e : GoError)
    (rest : List (Option GoError)) (hc : s.closed = false)
    (hI : WgInv s) (hq : s.queue = some e :: rest) :
    (s.Add (some e)).2.wgCount = s.wgCount + 1 ∧
    (s.AddAsync (some e)).2.wgCount = s.wgCount + 1 ∧
    s.startIteration.wgCount + 1 = s.wgCount ∧
    s.startIteration.queue = rest ∧
    s.startIteration.handled = s.handled ++ [s.handle e] := by
  have h1 : 1 ≤ s.wgCount := by
    simp [WgInv, hq] at hI
    omega
  refine ⟨by simp [AsyncError.Add, AsyncError.IsClosed, hc],
          by simp [AsyncError.AddAsync, AsyncError.IsClosed, hc],
          ?_,
          by simp [AsyncError.startIteration, hq],
          by simp [AsyncError.startIteration, hq]⟩
  simp [AsyncError.startIteration, hq]
  omega

/-- A started fresh instance holding one non-nil queued error. -/
def c4w : AsyncError := ((New []).StartHandle.2.Add (some (errorsNew ("balanced")))).2

/-- Witness for the amended C4 claim at the concrete instance. -/
theorem wg_balance_witness :
    (c4w.Add (some (errorsNew ("balanced")))).2.wgCount = c4w.wgCount + 1 ∧
    (c4w.AddAsync (some (errorsNew ("balanced")))).2.wgCount = c4w.wgCount + 1 ∧
    c4w.startIteration.wgCount + 1 = c4w.wgCount ∧
    c4w.startIteration.queue = [] ∧
    c4w.startIteration.handled = c4w.handled ++ [c4w.handle (errorsNew ("balanced"))] :=
  wg_balance c4w (errorsNew ("balanced")) [] (by decide)
    (by unfold WgInv; decide) (by decide)

/-- Claim C5: Close called on a running instance completes only after
pendingCount has drained to zero: starting from any freshly constructed
state, in every reachable state where the instance is running, a completing
Close implies the wait-group counter is zero and both the channel buffer
and the pending asynchronous sends are empty — every error already admitted
via Add or AddAsync has been handled — and the state Close leaves behind
has running cleared and closed set. -/
theorem close_waits_for_drain (s0 s t : AsyncError)
    (h0w : s0.wgCount = 0) (h0q : s0.queue = []) (h0p : s0.asyncPending = [])
    (h0n : s0.leakedNils = 0) (hreach : Reachable s0 s)
    (hr : s.running = true) (hcomp : CloseCompletes s t) :
    s.wgCount = 0 ∧ s.queue = [] ∧ s.asyncPending = [] ∧
    t.running = false ∧ t.closed = true := by
  have hI0 : WgInv s0 := by simp [WgInv, h0w, h0q, h0p, h0n]
  have hI : WgInv s := wgInv_reachable hreach hI0
  obtain ⟨hc, hw, ht⟩ := hcomp
  have hw0 : s.wgCount = 0 := hw hr
  simp only [WgInv] at hI
  have hql : s.queue.length = 0 := by omega
  have hpl : s.asyncPending.length = 0 := by omega
  subst ht
  refine ⟨hw0, List.length_eq_zero.mp hql, List.length_eq_zero.mp hpl, ?_, ?_⟩ <;>
    simp [closeEffect, hr]

/-- A started fresh instance. -/
def c5s1 : AsyncError := (New []).StartHandle.2
/-- One error admitted on the started instance. -/
def c5s2 : AsyncError := (c5s1.Add (some (errorsNew ("drained")))).2
/-- The admitted error has been dequeued and handled. -/
def c5s3 : AsyncError := c5s2.startIteration

/-- Witness for C5 along a concrete trace: start, admit one error, handle
it, then complete Close. -/
theorem close_waits_for_drain_witness :
    c5s3.wgCount = 0 ∧ c5s3.queue = [] ∧ c5s3.asyncPending = [] ∧
    (closeEffect c5s3).running = false ∧ (closeEffect c5s3).closed = true :=
  close_waits_for_drain (New []) c5s3 (closeEffect c5s3)
    (by decide) (by decide) (by decide) (by decide)
    (Reachable.tail _ _ _
      (Reachable.tail _ _ _
        (Reachable.tail _ _ _ (Reachable.refl (New []))
          (Step.startOk (New []) (by decide)))
        (Step.addOk c5s1 (some (errorsNew ("drained"))) (by decide) (by decide)))
      (Step.iterate c5s2 (some (errorsNew ("drained"))) [] (by decide) (by decide)))
    (by decide)
    ⟨by decide, fun _ => by decide, rfl⟩

/-- Claim C6: the closed flag is monotone — no step of the instance ever
clears it — and Close is idempotent: once a Close call has returned a
state, that state is closed and a further Close on it returns it unchanged
without reaching the channel-closing code, so there is no panic and no
double release. -/
theorem closed_monotone_close_idempotent :
    (∀ s t : AsyncError, Step s t → s.closed = true → t.closed = true) ∧
    (∀ s t : AsyncError, s.Close = some t →
      t.closed = true ∧ t.Close = some t) := by
  constructor
  · intro s t h hc
    cases h with
    | addOk e hc' hroom => simp [hc] at hc'
    | addClosed e hc' => simp [AsyncError.Add, AsyncError.IsClosed, hc', hc]
    | addAsyncOk e hc' => simp [hc] at hc'
    | addAsyncClosed e hc' => simp [AsyncError.AddAsync, AsyncError.IsClosed, hc', hc]
    | deliverAsync l1 l2 e hp hroom hcc => simpa using hc
    | startOk hc' => simp [hc] at hc'
    | startClosed hc' => simp [AsyncError.StartHandle, AsyncError.IsClosed, hc', hc]
    | stopStep => cases hr : s.running <;> simp [AsyncError.Stop, hr, hc]
    | iterate ne rest hq hl =>
        cases ne <;> simp [AsyncError.startIteration, hq, hc]
    | closeDone hc' hw => cases hr : s.running <;> simp [closeEffect, hr]
    | closeNoop hc' => exact hc
    | loopExit hs hl => simpa using hc
    | panicStep p =>
        simp [AsyncError.PanicToError, AsyncError.Add, AsyncError.IsClosed, hc]
  · intro s t h
    by_cases hc : s.closed = true
    · have ht : t = s := by
        simp [AsyncError.Close, AsyncError.IsClosed, hc] at h
        exact h.symm
      subst ht
      simp [AsyncError.Close, AsyncError.IsClosed, hc]
    · simp [AsyncError.Close, AsyncError.IsClosed, hc] at h
      obtain ⟨⟨h1, h2⟩, ht⟩ := h
      subst ht
      have hig : (closeEffect s).closed = true := by
        cases hr : s.running <;> simp [closeEffect, hr]
      exact ⟨hig, by simp [AsyncError.Close, AsyncError.IsClosed, hig]⟩

/-- The state after the first Close of a fresh instance. -/
def c6s : AsyncError := closeEffect (New [])

/-- Witness for C6: the state returned by the first Close of a fresh
instance is closed, and a second Close returns it unchanged. -/
theorem closed_monotone_close_idempotent_witness :
    c6s.closed = true ∧ c6s.Close = some c6s :=
  closed_monotone_close_idempotent.2 (New []) c6s (by decide)

/-- Claim C7: when no baseError is configured the handling step chains
nothing beneath the handling annotation: fmt.Errorf with a nil percent-w
operand wraps nothing, so the delivered error unwraps to a plain
non-wrapping error — no ancestor arises from the absent base and unwrapping
never reaches a nil base value — and the wrapping step is a total function
that never fails. -/
theorem handle_no_base_no_chain (s : AsyncError) (e : GoError)
    (rest : List (Option GoError)) (hb : s.baseError = none)
    (hq : s.queue = some e :: rest) (hl : 1 ≤ s.loops) :
    s.startIteration.handled = s.handled ++ [s.handle e] ∧
    (s.handle e).unwrap =
      some (GoError.simple (("%!w(<nil>)") ++ (": ") ++ e.message)) ∧
    (GoError.simple (("%!w(<nil>)") ++ (": ") ++ e.message)).unwrap = none := by
  refine ⟨by simp [AsyncError.startIteration, hq], ?_, rfl⟩
  simp [AsyncError.handle, errorfBaseV, hb, wrapNonNil, GoError.unwrap]

/-- A started fresh instance without base error holding one queued error. -/
def c7s : AsyncError := ((New []).StartHandle.2.Add (some (errorsNew ("plain")))).2

/-- Witness for C7 at the concrete instance. -/
theorem handle_no_base_no_chain_witness :
    c7s.startIteration.handled = c7s.handled ++ [c7s.handle (errorsNew ("plain"))] ∧
    (c7s.handle (errorsNew ("plain"))).unwrap =
      some (GoError.simple (("%!w(<nil>)") ++ (": ") ++ (errorsNew ("plain")).message)) ∧
    (GoError.simple
      (("%!w(<nil>)") ++ (": ") ++ (errorsNew ("plain")).message)).unwrap = none :=
  handle_no_base_no_chain c7s (errorsNew ("plain")) [] (by decide) (by decide) (by decide)

/-- Claim C8: PanicToError on a panicking task converts the payload into an
error whose message is the fixed recoverToError annotation, a colon-space,
and the payload's textual representation, and which unwraps to the plain
payload error; it admits that error through Add and discards the result of
Add: on a closed instance the state is unchanged (the converted error is
silently dropped, nothing else happens), otherwise the error is enqueued
and the counter incremented; with no panic payload nothing happens at
all. -/
theorem panicToError_converts_and_drops (s : AsyncError) (p : String) :
    s.PanicToError none = s ∧
    (s.closed = true → s.PanicToError (some p) = s) ∧
    (s.closed = false →
      s.PanicToError (some p) =
        { s with wgCount := s.wgCount + 1,
                 queue := s.queue ++
                   [some (wrapNonNil ("recoverToError()") (GoError.simple p))] }) ∧
    (wrapNonNil ("recoverToError()") (GoError.simple p)).message =
      ("recoverToError()") ++ (": ") ++ p ∧
    (wrapNonNil ("recoverToError()") (GoError.simple p)).unwrap =
      some (GoError.simple p) := by
  refine ⟨rfl, ?_, ?_, rfl, rfl⟩ <;> intro hc <;>
    simp [AsyncError.PanicToError, AsyncError.Add, AsyncError.IsClosed, hc]

/-- A concrete closed instance for the dropped-panic case. -/
def c8s : AsyncError := closeEffect (New [])

/-- Witness for C8: the converted panic is dropped on a closed instance and
enqueued on an open one. -/
theorem panicToError_converts_and_drops_witness :
    c8s.PanicToError (some ("kaboom")) = c8s ∧
    (New []).PanicToError (some ("kaboom")) =
      { (New []) with
          wgCount := (New []).wgCount + 1,
          queue := (New []).queue ++
            [some (wrapNonNil ("recoverToError()") (GoError.simple ("kaboom")))] } :=
  ⟨(panicToError_converts_and_drops c8s ("kaboom")).2.1 (by decide),
   (panicToError_converts_and_drops (New []) ("kaboom")).2.2.1 (by decide)⟩

/-- Claim C9: Wrap is a no-op on a nil pointer and on a pointer holding a
nil error; otherwise it replaces the pointed error by a new one whose
message is the formatted text, a colon-space, and the old error's message,
and which unwraps to exactly the old error (round-trip). -/
theorem wrap_round_trip (s : String) (e : GoError) :
    Wrap none s = none ∧
    Wrap (some none) s = some none ∧
    Wrap (some (some e)) s = some (some (wrapNonNil s e)) ∧
    (wrapNonNil s e).message = s ++ (": ") ++ e.message ∧
    (wrapNonNil s e).unwrap = some e :=
  ⟨rfl, rfl, rfl, rfl, rfl⟩

/-- Claim C10: Close on a not-yet-closed instance that is not running (no
dispatch loop goroutine is active) does not drain the buffered errors: it
returns at once with the instance closed and the channel released while the
handled list is unchanged and the buffer still holds the admitted errors;
and from that closed, loopless state no step can ever deliver them, so they
are permanently lost — never delivered to the handler or the logger. -/
theorem close_not_running_loses_buffered (s : AsyncError)
    (hc : s.closed = false) (hr : s.running = false) (hl : s.loops = 0) :
    (closeEffect s).closed = true ∧ (closeEffect s).running = false ∧
    (closeEffect s).handled = s.handled ∧ (closeEffect s).queue = s.queue ∧
    (closeEffect s).chanClosed = true ∧
    (∀ t, Reachable (closeEffect s) t → t.handled = s.handled) := by
  have h1 : (closeEffect s).closed = true := by simp [closeEffect, hr]
  have h2 : (closeEffect s).loops = 0 := by simp [closeEffect, hr, hl]
  have h4 : (closeEffect s).handled = s.handled := by simp [closeEffect, hr]
  refine ⟨h1, by simp [closeEffect, hr], h4, by simp [closeEffect, hr],
    by simp [closeEffect, hr], ?_⟩
  intro t ht
  exact ((frozen_reachable ht h1 h2).2.2).trans h4

/-- A fresh, never started instance with one buffered error. -/
def c10s : AsyncError := ((New []).Add (some (errorsNew ("lost")))).2

/-- Witness for C10 at the concrete instance. -/
theorem close_not_running_loses_buffered_witness :
    (closeEffect c10s).closed = true ∧ (closeEffect c10s).running = false ∧
    (closeEffect c10s).handled = c10s.handled ∧
    (closeEffect c10s).queue = c10s.queue ∧
    (closeEffect c10s).chanClosed = true := by
  have h := close_not_running_loses_buffered c10s (by decide) (by decide) (by decide)
  exact ⟨h.1, h.2.1, h.2.2.1, h.2.2.2.1, h.2.2.2.2.1⟩
